import Mathlib

/-!
Shallow embedding of the OBD-II reader core (`src/lib/obd.ts`, class-based
version): the response framer (the btSerial `data` handler in
`OBDReader.connect`), the PID decode dispatcher (`parseOBDCommand`), the
command queue (`OBDReader.write` and the `intervalWriter` drain tick), the
poller scheduler (`addPoller`/`removePoller`/`writePollers`/`startPolling`),
and the module-global queue shared across instances.

The PID metadata table (`obdInfo`) is an external data collaborator: all
definitions that consult it are parameterised over a table value.
-/

namespace OBD

/-! ### Response framer

Embeds the `btSerial.on('data', ...)` handler: the incoming byte stream is
modelled as `List Char`; JS `String.prototype.split(sep)` for a one-character
separator is `splitOnChar`. -/

/-- JS `s.split(c)` for a single-character separator: always returns at least
one piece; `"".split(c) = [""]`. -/
def splitOnChar (c : Char) : List Char → List (List Char)
  | [] => [[]]
  | x :: xs =>
    match splitOnChar c xs with
    | [] => [[]]
    | p :: ps => if x = c then [] :: p :: ps else (x :: p) :: ps

/-- The inner double loop of the data handler: skip empty `'>'`-parts, split
each remaining part on `'\r'`, and keep every non-empty message, in order. -/
def frameMessages (parts : List (List Char)) : List (List Char) :=
  (parts.filter (fun p => p ≠ [])).flatMap
    (fun p => (splitOnChar '\r' p).filter (fun m => m ≠ []))

/-- One invocation of the `data` handler. State is `receivedData` (the raw
stream buffer). Returns the message strings passed to `parseOBDCommand`
(each emitted as a `dataReceived` event) and the new buffer. The buffer is
reset to `''` only inside the message-emission loop, so it is left unchanged
when the split has at least two pieces but no non-empty message exists. -/
def feedFrames (buffer chunk : List Char) : List (List Char) × List Char :=
  let s := buffer ++ chunk
  let parts := splitOnChar '>' s
  if parts.length < 2 then ([], parts.headD [])
  else
    let msgs := frameMessages parts
    (msgs, if msgs = [] then buffer else [])

/-- Feeding a whole sequence of chunks to the data handler, starting from the
initial empty buffer: accumulated frames and final buffer. -/
def feedAll (chunks : List (List Char)) : List (List Char) × List Char :=
  chunks.foldl
    (fun acc c =>
      let r := feedFrames acc.2 c
      (acc.1 ++ r.1, r.2))
    ([], [])

/-! ### PID decode dispatcher -/

/-- A decoded sensor value as produced by a PID table `convertToUseful`
formula: a number or a string. -/
inductive Value where
  | str : String → Value
  | num : Int → Value
deriving DecidableEq, Repr

/-- One record of the external PID table (`obdInfo`). `pid` is `none` for
modes that take no parameter ID (JS `undefined`). `convertToUseful` receives
its byte-token arguments as `Option String` because the JS call sites pass
`valueArray[k]`, which is `undefined` past the end of the array. -/
structure PIDEntry where
  name : String
  mode : String
  pid : Option String
  bytes : Nat
  convertToUseful : List (Option String) → Value

/-- The reply object built by `parseOBDCommand`: every field is optional
because the JS object gains fields dynamically. -/
structure Reply where
  mode : Option String := none
  pid : Option String := none
  name : Option String := none
  value : Option Value := none
deriving DecidableEq, Repr

/-- The literal status tokens short-circuited at the top of
`parseOBDCommand`. -/
def literalTokens : List String :=
  ["NO DATA", "OK", "?", "UNABLE TO CONNECT", "SEARCHING..."]

/-- Models `hexString.replace(/ /g, '')`. -/
def stripSpaces (s : String) : String :=
  ⟨s.data.filter (fun c => c ≠ ' ')⟩

/-- The tokenising loop `for (byteNumber = 0; ...; byteNumber += 2)
valueArray.push(hexString.substr(byteNumber, 2))`: chunks the string into
two-character tokens, the last token possibly a single character. -/
def chunkPairs : List Char → List String
  | [] => []
  | [a] => [String.mk [a]]
  | a :: b :: rest => String.mk [a, b] :: chunkPairs rest

/-- The byte-token arguments handed to `convertToUseful` for a declared
width of `n` bytes: `valueArray[2], ..., valueArray[n+1]` (JS `undefined`,
i.e. `none`, past the end). -/
def declaredArgs (n : Nat) (valueArray : List String) : List (Option String) :=
  (List.range n).map (fun k => valueArray[2 + k]?)

/-- Embedding of `parseOBDCommand` (src/lib/obd.ts lines 683-735),
parameterised over the external PID table. The `"41"` branch takes the first
table entry whose `pid` equals the second token (JS `==`: `undefined ==
undefined` is true, which `Option` equality models) and sets `value` only for
declared widths 1, 2, 4, 8. The `"43"` branch iterates over the whole table
without breaking, so the last entry with mode `"03"` wins. -/
def parseOBDCommand (PIDS : List PIDEntry) (hexString : String) : Reply :=
  if hexString ∈ literalTokens then { value := some (.str hexString) }
  else
    let valueArray := chunkPairs (stripSpaces hexString).data
    if valueArray[0]? = some "41" then
      let pid := valueArray[1]?
      match PIDS.find? (fun e => e.pid = pid) with
      | some e =>
        let base : Reply := { mode := some "41", pid := pid, name := some e.name }
        if e.bytes = 1 then
          { base with value := some (e.convertToUseful [valueArray[2]?]) }
        else if e.bytes = 2 then
          { base with value := some (e.convertToUseful
              [valueArray[2]?, valueArray[3]?]) }
        else if e.bytes = 4 then
          { base with value := some (e.convertToUseful
              [valueArray[2]?, valueArray[3]?, valueArray[4]?,
               valueArray[5]?]) }
        else if e.bytes = 8 then
          { base with value := some (e.convertToUseful
              [valueArray[2]?, valueArray[3]?, valueArray[4]?,
               valueArray[5]?, valueArray[6]?, valueArray[7]?,
               valueArray[8]?, valueArray[9]?]) }
        else base
      | none => { mode := some "41", pid := pid }
    else if valueArray[0]? = some "43" then
      PIDS.foldl
        (fun r e =>
          if e.mode = "03" then
            { r with name := some e.name,
                     value := some (e.convertToUseful
                       [valueArray[1]?, valueArray[2]?, valueArray[3]?,
                        valueArray[4]?, valueArray[5]?, valueArray[6]?]) }
          else r)
        { mode := some "43" }
    else {}

/-- Embedding of `getPIDByName`: first table entry with the given name;
`mode + pid` when the entry has a `pid`, else `mode`; `undefined` (`none`)
when no entry matches — the JS function falls off the end. -/
def getPIDByName (PIDS : List PIDEntry) (name : String) : Option String :=
  match PIDS.find? (fun e => e.name = name) with
  | some e =>
    match e.pid with
    | some p => some (e.mode ++ p)
    | none => some e.mode
  | none => none

/-! ### Command queue and drain tick -/

/-- The drain period (`writeDelay`), in milliseconds. -/
def writeDelay : Nat := 50

/-- The string pushed by `OBDReader.write`: `message + replies + '\r'` when
`replies !== 0`, else `message + '\r'`. `message` is `Option String` because
`requestValueByName`/`addPoller` can feed `getPIDByName`'s `undefined`
through: JS `undefined + '\r'` is `"undefined\r"` and `undefined + n` for a
number `n` is `NaN`, so `NaN + '\r'` is `"NaN\r"`. -/
def encodeCommand (message : Option String) (replies : Nat) : String :=
  match message, replies with
  | some m, 0 => m ++ "\r"
  | some m, r => m ++ toString r ++ "\r"
  | none, 0 => "undefined\r"
  | none, _ => "NaN\r"

/-- Embedding of `OBDReader.write` (src/lib/obd.ts lines 556-573) acting on
the module-global queue: returns the new queue and the list of error-event
messages emitted. -/
def write (connected : Bool) (queue : List String) (message : Option String)
    (replies : Nat) : List String × List String :=
  if connected then
    if queue.length < 256 then (queue ++ [encodeCommand message replies], [])
    else (queue, ["Queue-overflow!"])
  else (queue, ["Bluetooth device is not connected."])

/-- The mutable state read and written by one `intervalWriter` tick:
the global queue, the instance's `connected` flag and `activePollers`
array (entries are `Option String`: `addPoller` can push `undefined`), and
whether the two timers are still scheduled. -/
structure DrainState where
  queue : List String
  connected : Bool
  activePollers : List (Option String)
  intervalWriterActive : Bool
  pollerIntervalActive : Bool
deriving DecidableEq, Repr

/-- One `intervalWriter` tick (src/lib/obd.ts lines 513-527). A cancelled
timer no longer fires, so the tick is a no-op when `intervalWriterActive` is
false. Otherwise, when the queue is non-empty and the instance connected,
`queue.shift()` removes the head and its bytes go to `btSerial.write`;
`throws` says whether that transport call throws, in which case the catch
block emits two errors, cancels the drain timer (`clearInterval`) and calls
`removeAllPollers()` — which only empties `activePollers`, it does not
cancel `pollerInterval`. Returns the new state and the commands written. -/
def drainTick (throws : Bool) (s : DrainState) : DrainState × List String :=
  if s.intervalWriterActive then
    match s.queue with
    | [] => (s, [])
    | cmd :: rest =>
      if s.connected then
        if throws then
          ({ s with queue := rest, intervalWriterActive := false,
                    activePollers := [] }, [])
        else ({ s with queue := rest }, [cmd])
      else (s, [])
  else (s, [])

/-! ### Poller scheduler -/

/-- Embedding of `OBDReader.addPoller`: pushes `getPIDByName name` — possibly
`undefined` — onto `activePollers`. -/
def addPoller (PIDS : List PIDEntry) (name : String)
    (activePollers : List (Option String)) : List (Option String) :=
  activePollers ++ [getPIDByName PIDS name]

/-- Embedding of `OBDReader.removePoller`: `indexOf` (strict `===`, which `Option`
equality models) followed by `splice(index, 1)`. When the element is not
found, `indexOf` yields `-1` and JS `splice(-1, 1)` removes the LAST element
of the array (a no-op on an empty array). -/
def removePoller (PIDS : List PIDEntry) (name : String)
    (activePollers : List (Option String)) : List (Option String) :=
  match activePollers.findIdx? (fun p => p = getPIDByName PIDS name) with
  | some i => activePollers.eraseIdx i
  | none => activePollers.dropLast

/-- Embedding of `OBDReader.writePollers`: calls `write(activePollers[i], 1)` for each
entry in order; threads the queue and collects emitted error events. -/
def writePollers (connected : Bool) (queue : List String)
    (activePollers : List (Option String)) : List String × List String :=
  activePollers.foldl
    (fun acc p =>
      let r := write connected acc.1 p 1
      (r.1, acc.2 ++ r.2))
    (queue, [])

/-- The timer period chosen by `OBDReader.startPolling`: the argument when
given, else `activePollers.length * (writeDelay * 2)`. -/
def startPollingInterval (interval : Option Nat)
    (activePollers : List (Option String)) : Nat :=
  match interval with
  | some i => i
  | none => activePollers.length * (writeDelay * 2)

/-! ### Module-global queue shared across instances -/

/-- The per-instance fields of `OBDReader` (the class-based version): the
transport handle `btSerial` is the external collaborator reference and is
not modelled beyond its existence. -/
structure OBDInstance where
  connected : Bool := false
  receivedData : String := ""
  protocol : String := "0"
  activePollers : List (Option String) := []
  intervalWriterActive : Bool := false
  pollerIntervalActive : Bool := false
deriving DecidableEq, Repr

/-- The process state: ONE module-global command queue (`const queue = []`
at module scope, src/lib/obd.ts lines 370-374) and any number of
`OBDReader` instances. -/
structure World where
  queue : List String
  instances : List OBDInstance
deriving DecidableEq, Repr

/-- Embedding of `write` called on instance `i`: reads that instance's `connected` flag
but pushes onto the single global queue; no instance field changes. -/
def worldWrite (w : World) (i : Nat) (message : Option String)
    (replies : Nat) : World × List String :=
  match w.instances[i]? with
  | none => (w, [])
  | some inst =>
    let r := write inst.connected w.queue message replies
    ({ w with queue := r.1 }, r.2)

/-- Embedding of `disconnect` called on instance `i` (src/lib/obd.ts lines 539-547):
cancels that instance's drain timer, sets `queue.length = 0` — emptying the
GLOBAL queue — and clears that instance's `connected` flag. -/
def worldDisconnect (w : World) (i : Nat) : World :=
  match w.instances[i]? with
  | none => w
  | some inst =>
    { queue := [],
      instances := w.instances.set i
        { inst with connected := false, intervalWriterActive := false } }

/-! ### Concrete fixtures used by witnesses and counterexamples -/

/-- A concrete drain state: one queued command, connected, one active poller,
both timers scheduled. -/
def c4state : DrainState :=
  { queue := ["010C1\r"], connected := true, activePollers := [some "010C"],
    intervalWriterActive := true, pollerIntervalActive := true }

/-- A concrete two-byte PID table entry standing in for the external
engine-RPM record (PID `0C`): its decode formula joins its byte-token
arguments, so the decoded value records exactly which tokens were passed. -/
def rpmEntry : PIDEntry :=
  { name := "Engine RPM", mode := "01", pid := some "0C", bytes := 2,
    convertToUseful := fun args =>
      Value.str (String.intercalate "," (args.map (fun o => o.getD "none"))) }

/-- A concrete table entry whose declared byte width 3 is none of
1, 2, 4, 8. -/
def oddWidthEntry : PIDEntry :=
  { name := "oddwidth", mode := "01", pid := some "AB", bytes := 3,
    convertToUseful := fun _ => Value.num 0 }

/-- A concrete one-entry table standing in for the external vehicle-speed
record (mode `01`, PID `0D`). -/
def vssEntry : PIDEntry :=
  { name := "vss", mode := "01", pid := some "0D", bytes := 1,
    convertToUseful := fun _ => Value.num 0 }

/-- A concrete world: an empty global queue and two reader instances, the
first connected. -/
def w0 : World :=
  { queue := [], instances := [{ connected := true }, {}] }

/-! ### Framer lemmas -/

theorem splitOnChar_ne_nil (c : Char) (l : List Char) : splitOnChar c l ≠ [] := by
  cases l with
  | nil => simp [splitOnChar]
  | cons x xs =>
    simp only [splitOnChar]
    cases h : splitOnChar c xs with
    | nil => simp
    | cons p ps =>
      by_cases hx : x = c <;> simp [hx]

theorem splitOnChar_length_one {c : Char} {l : List Char}
    (h : (splitOnChar c l).length = 1) : splitOnChar c l = [l] := by
  induction l with
  | nil => simp [splitOnChar]
  | cons x xs ih =>
    simp only [splitOnChar] at h ⊢
    cases hs : splitOnChar c xs with
    | nil => exact absurd hs (splitOnChar_ne_nil c xs)
    | cons p ps =>
      rw [hs] at h
      by_cases hx : x = c
      · simp [hx] at h
      · simp only [hx, if_false] at h ⊢
        simp only [List.length_cons] at h
        have hps : ps = [] := List.length_eq_zero.mp (by omega)
        subst hps
        have := ih (by rw [hs]; rfl)
        rw [hs] at this
        obtain rfl : p = xs := by simpa using this
        rfl

theorem count_flatten_splitOnChar {ch c : Char} (h : ch ≠ c) (l : List Char) :
    (splitOnChar c l).flatten.count ch = l.count ch := by
  induction l with
  | nil => simp [splitOnChar]
  | cons x xs ih =>
    simp only [splitOnChar]
    cases hs : splitOnChar c xs with
    | nil => exact absurd hs (splitOnChar_ne_nil c xs)
    | cons p ps =>
      rw [hs] at ih
      show (if x = c then [] :: p :: ps else (x :: p) :: ps).flatten.count ch
        = (x :: xs).count ch
      by_cases hx : x = c
      · rw [if_pos hx]
        subst hx
        simp only [List.flatten_cons, List.nil_append, List.count_cons] at ih ⊢
        rw [ih]
        simp [Ne.symm h]
      · rw [if_neg hx]
        simp only [List.flatten_cons, List.cons_append, List.count_cons,
          List.count_append] at ih ⊢
        omega

theorem flatten_filter_ne_nil (l : List (List Char)) :
    (l.filter (fun p => p ≠ [])).flatten = l.flatten := by
  induction l with
  | nil => rfl
  | cons p ps ih =>
    by_cases hp : p = []
    · subst hp
      rw [List.filter_cons_of_neg (by simp), List.flatten_cons, ih]
      rfl
    · rw [List.filter_cons_of_pos (by simpa using hp), List.flatten_cons,
        List.flatten_cons, ih]

theorem count_flatten_frameMessages {ch : Char} (h : ch ≠ '\r')
    (parts : List (List Char)) :
    (frameMessages parts).flatten.count ch = parts.flatten.count ch := by
  unfold frameMessages
  rw [← flatten_filter_ne_nil parts]
  generalize (parts.filter (fun p => p ≠ [])) = l
  induction l with
  | nil => rfl
  | cons p ps ih =>
    simp only [List.flatMap_cons, List.flatten_append, List.flatten_cons,
      List.count_append]
    rw [ih, flatten_filter_ne_nil, count_flatten_splitOnChar h]

theorem splitOnChar_length_pos (c : Char) (l : List Char) :
    1 ≤ (splitOnChar c l).length := by
  cases hx : splitOnChar c l with
  | nil => exact absurd hx (splitOnChar_ne_nil c l)
  | cons a t => simp

theorem feedFrames_eq_of_short {buffer chunk : List Char}
    (hl : (splitOnChar '>' (buffer ++ chunk)).length < 2) :
    feedFrames buffer chunk = ([], buffer ++ chunk) := by
  have hone : (splitOnChar '>' (buffer ++ chunk)).length = 1 := by
    have := splitOnChar_length_pos '>' (buffer ++ chunk)
    omega
  simp only [feedFrames, splitOnChar_length_one hone]
  simp

theorem feedFrames_eq_of_long {buffer chunk : List Char}
    (hl : ¬ (splitOnChar '>' (buffer ++ chunk)).length < 2) :
    feedFrames buffer chunk
      = (frameMessages (splitOnChar '>' (buffer ++ chunk)),
         if frameMessages (splitOnChar '>' (buffer ++ chunk)) = [] then buffer
         else []) := by
  simp only [feedFrames, if_neg hl]

theorem feedFrames_count {ch : Char} (h1 : ch ≠ '>') (h2 : ch ≠ '\r')
    (buffer chunk : List Char) :
    (buffer ++ chunk).count ch
      = (feedFrames buffer chunk).1.flatten.count ch
        + (feedFrames buffer chunk).2.count ch := by
  have hsplit : (splitOnChar '>' (buffer ++ chunk)).flatten.count ch
      = (buffer ++ chunk).count ch :=
    count_flatten_splitOnChar h1 (buffer ++ chunk)
  by_cases hl : (splitOnChar '>' (buffer ++ chunk)).length < 2
  · rw [feedFrames_eq_of_short hl]
    simp
  · rw [feedFrames_eq_of_long hl]
    have hmsg : (frameMessages (splitOnChar '>' (buffer ++ chunk))).flatten.count ch
        = (buffer ++ chunk).count ch := by
      rw [count_flatten_frameMessages h2, hsplit]
    by_cases hm : frameMessages (splitOnChar '>' (buffer ++ chunk)) = []
    · rw [hm] at hmsg ⊢
      have hbuf : (if ([] : List (List Char)) = [] then buffer else []) = buffer :=
        rfl
      rw [hbuf]
      simp only [List.flatten_nil, List.count_nil] at hmsg ⊢
      rw [List.count_append] at hmsg ⊢
      omega
    · rw [if_neg hm]
      simpa using hmsg.symm

theorem feedAll_go {ch : Char} (h1 : ch ≠ '>') (h2 : ch ≠ '\r')
    (chunks : List (List Char)) :
    ∀ acc : List (List Char) × List Char,
      ((chunks.foldl
          (fun acc c => (acc.1 ++ (feedFrames acc.2 c).1, (feedFrames acc.2 c).2))
          acc).1.flatten.count ch)
      + ((chunks.foldl
          (fun acc c => (acc.1 ++ (feedFrames acc.2 c).1, (feedFrames acc.2 c).2))
          acc).2.count ch)
      = acc.1.flatten.count ch + acc.2.count ch + chunks.flatten.count ch := by
  induction chunks with
  | nil => intro acc; simp
  | cons c rest ih =>
    intro acc
    simp only [List.foldl_cons]
    rw [ih]
    have hfeed := feedFrames_count h1 h2 acc.2 c
    simp only [List.count_append] at hfeed
    simp only [List.flatten_append, List.flatten_cons, List.count_append]
    omega

theorem feedAll_count {ch : Char} (h1 : ch ≠ '>') (h2 : ch ≠ '\r')
    (chunks : List (List Char)) :
    chunks.flatten.count ch
      = (feedAll chunks).1.flatten.count ch + (feedAll chunks).2.count ch := by
  have h := feedAll_go h1 h2 chunks ([], [])
  simp only [List.flatten_nil, List.count_nil] at h
  simp only [feedAll]
  omega

/-! ### Claim C1 -/

/-- Claim C1: the Response Framer loses no bytes. For every sequence of chunks
fed to the data handler and every non-delimiter byte `ch` (the delimiters are
the prompt `'>'` and the line separator `'\r'`), the number of occurrences of
`ch` in the concatenation of all bytes received equals its occurrences in the
frames emitted plus its occurrences in the current `receivedData` tail — no
byte is dropped or duplicated across chunk boundaries. In particular, feeding
`"41 0C 1A F8>"` in one chunk yields exactly one frame, feeding `"41 0C 1A"`
then `"F8>"` yields no frame and then exactly one frame, and both frames
decode to the identical `dataReceived` Reply for every PID table. -/
theorem framer_no_byte_loss (chunks : List (List Char)) (ch : Char)
    (h1 : ch ≠ '>') (h2 : ch ≠ '\r') :
    chunks.flatten.count ch
      = (feedAll chunks).1.flatten.count ch + (feedAll chunks).2.count ch
    ∧ feedFrames [] "41 0C 1A F8>".data = (["41 0C 1A F8".data], [])
    ∧ feedFrames [] "41 0C 1A".data = ([], "41 0C 1A".data)
    ∧ feedFrames "41 0C 1A".data "F8>".data = (["41 0C 1AF8".data], [])
    ∧ ∀ PIDS : List PIDEntry,
        parseOBDCommand PIDS "41 0C 1A F8" = parseOBDCommand PIDS "41 0C 1AF8" := by
  refine ⟨feedAll_count h1 h2 chunks, by decide, by decide, by decide, ?_⟩
  intro PIDS
  rfl

/-- Witness for C1 at the split-chunk input of the spec's example, counting
the payload byte `'F'`. -/
theorem framer_no_byte_loss_witness :
    ([("41 0C 1A".data : List Char), "F8>".data] : List (List Char)).flatten.count 'F'
      = (feedAll ["41 0C 1A".data, "F8>".data]).1.flatten.count 'F'
        + (feedAll ["41 0C 1A".data, "F8>".data]).2.count 'F' :=
  (framer_no_byte_loss ["41 0C 1A".data, "F8>".data] 'F' (by decide) (by decide)).1

/-! ### Claim C2 -/

/-- Claim C2: for every command string `c` and reply-count `r`, `write(c, r)`
while connected with the queue below capacity appends exactly
`c + (r if r != 0 else '') + '\r'` to the queue and emits no error; one
subsequent drain tick removes exactly one command — the head, preserving FIFO
enqueue order (`take 1`/`drop 1`) — writes its bytes to the transport, and the
queue length decreases by exactly one; when the queue was empty beforehand the
written bytes are exactly the enqueued command. -/
theorem write_enqueue_drain (c : String) (r : Nat) (q : List String)
    (hq : q.length < 256) :
    write true q (some c) r = (q ++ [encodeCommand (some c) r], [])
    ∧ encodeCommand (some c) r = c ++ (if r = 0 then "" else toString r) ++ "\r"
    ∧ ∀ (aps : List (Option String)) (pa : Bool),
        (drainTick false ⟨q ++ [encodeCommand (some c) r], true, aps, true, pa⟩).1.queue
          = (q ++ [encodeCommand (some c) r]).drop 1
        ∧ (drainTick false ⟨q ++ [encodeCommand (some c) r], true, aps, true, pa⟩).2
          = (q ++ [encodeCommand (some c) r]).take 1
        ∧ (drainTick false ⟨q ++ [encodeCommand (some c) r], true, aps, true, pa⟩).1.queue.length
            + 1
          = (q ++ [encodeCommand (some c) r]).length
        ∧ (q = [] →
            (drainTick false ⟨q ++ [encodeCommand (some c) r], true, aps, true, pa⟩).2
              = [encodeCommand (some c) r]) := by
  refine ⟨by simp [write, hq], ?_, ?_⟩
  · cases r with
    | zero => simp [encodeCommand]
    | succ n => simp [encodeCommand]
  · intro aps pa
    cases q with
    | nil => simp [drainTick]
    | cons a t => simp [drainTick]

/-- Witness for C2 at `c = "010C"`, `r = 1`, starting from the empty queue. -/
theorem write_enqueue_drain_witness :
    write true [] (some "010C") 1 = ([encodeCommand (some "010C") 1], [])
    ∧ encodeCommand (some "010C") 1
        = "010C" ++ (if 1 = 0 then "" else toString 1) ++ "\r"
    ∧ ∀ (aps : List (Option String)) (pa : Bool),
        (drainTick false ⟨[] ++ [encodeCommand (some "010C") 1], true, aps, true, pa⟩).1.queue
          = ([] ++ [encodeCommand (some "010C") 1]).drop 1
        ∧ (drainTick false ⟨[] ++ [encodeCommand (some "010C") 1], true, aps, true, pa⟩).2
          = ([] ++ [encodeCommand (some "010C") 1]).take 1
        ∧ (drainTick false ⟨[] ++ [encodeCommand (some "010C") 1], true, aps, true, pa⟩).1.queue.length
            + 1
          = ([] ++ [encodeCommand (some "010C") 1]).length
        ∧ (([] : List String) = [] →
            (drainTick false ⟨[] ++ [encodeCommand (some "010C") 1], true, aps, true, pa⟩).2
              = [encodeCommand (some "010C") 1]) := by
  have h := write_enqueue_drain "010C" 1 [] (by decide)
  simpa using h

/-! ### Claim C3 -/

/-- Claim C3: enqueueing via `write` while connected when the queue already
holds 256 commands always emits the `Queue-overflow!` error event, drops the
command, and leaves the queue unchanged at length 256; moreover `write` never
grows any queue of length at most 256 beyond 256 (the queue never exceeds its
capacity). -/
theorem write_overflow (q : List String) (m : Option String) (r : Nat)
    (hq : q.length = 256) :
    write true q m r = (q, ["Queue-overflow!"])
    ∧ ∀ (c : Bool) (q2 : List String) (m2 : Option String) (r2 : Nat),
        q2.length ≤ 256 → ((write c q2 m2 r2).1).length ≤ 256 := by
  constructor
  · simp [write, hq]
  · intro c q2 m2 r2 h
    unfold write
    split_ifs <;> simp <;> omega

/-- Witness for C3 at a queue of 256 copies of `"ATZ\r"`. -/
theorem write_overflow_witness :
    write true (List.replicate 256 "ATZ\r") (some "010C") 1
      = (List.replicate 256 "ATZ\r", ["Queue-overflow!"])
    ∧ ∀ (c : Bool) (q2 : List String) (m2 : Option String) (r2 : Nat),
        q2.length ≤ 256 → ((write c q2 m2 r2).1).length ≤ 256 :=
  write_overflow (List.replicate 256 "ATZ\r") (some "010C") 1
    (List.length_replicate 256 "ATZ\r")

/-! ### Claim C4 -/

/-- Claim C4 counterexample: the claim says only after THREE consecutive
transport write exceptions is the connection treated as lost, and that fewer
than three consecutive exceptions do not tear down the timers. In the code the
`catch` block of the `intervalWriter` tick has no counter: a SINGLE exception
already cancels the drain timer and clears the poller set, as this concrete
one-tick run shows. -/
theorem drain_teardown_after_first_exception :
    c4state.intervalWriterActive = true
    ∧ (drainTick true c4state).1.intervalWriterActive = false
    ∧ (drainTick true c4state).1.activePollers = [] := by decide

/-- Claim C4 (amended): after ONE transport write exception during queue
drain the connection is treated as lost: the drain timer is cancelled and the
Active Poller Set is cleared (the poller timer itself is not cancelled, but a
subsequent poller tick enqueues nothing), so no further automatic writes
occur — any later drain tick is a no-op. The failing command was already
removed from the queue by `queue.shift()` before the exception. -/
theorem drain_single_exception_teardown (s : DrainState)
    (h1 : s.intervalWriterActive = true) (h2 : s.connected = true)
    (h3 : s.queue ≠ []) :
    (drainTick true s).1.intervalWriterActive = false
    ∧ (drainTick true s).1.activePollers = []
    ∧ (drainTick true s).1.pollerIntervalActive = s.pollerIntervalActive
    ∧ (drainTick true s).1.queue = s.queue.tail
    ∧ (drainTick true s).2 = []
    ∧ (∀ b : Bool, drainTick b (drainTick true s).1 = ((drainTick true s).1, []))
    ∧ ∀ q : List String,
        writePollers (drainTick true s).1.connected q
          (drainTick true s).1.activePollers = (q, []) := by
  obtain ⟨queue, connected, aps, iwa, pia⟩ := s
  simp only at h1 h2 h3
  subst h1
  subst h2
  obtain ⟨cmd, rest, rfl⟩ := List.exists_cons_of_ne_nil h3
  simp [drainTick, writePollers]

/-- Witness for the amended C4 at the concrete state `c4state`. -/
theorem drain_single_exception_teardown_witness :
    (drainTick true c4state).1.intervalWriterActive = false
    ∧ (drainTick true c4state).1.activePollers = []
    ∧ (drainTick true c4state).1.pollerIntervalActive = c4state.pollerIntervalActive
    ∧ (drainTick true c4state).1.queue = c4state.queue.tail
    ∧ (drainTick true c4state).2 = []
    ∧ (∀ b : Bool, drainTick b (drainTick true c4state).1 = ((drainTick true c4state).1, []))
    ∧ ∀ q : List String,
        writePollers (drainTick true c4state).1.connected q
          (drainTick true c4state).1.activePollers = (q, []) :=
  drain_single_exception_teardown c4state rfl rfl (by decide)

/-! ### Decoder lemmas -/

theorem declaredArgs_one (va : List String) : declaredArgs 1 va = [va[2]?] := by
  simp [declaredArgs, List.range_succ]

theorem declaredArgs_two (va : List String) :
    declaredArgs 2 va = [va[2]?, va[3]?] := by
  simp [declaredArgs, List.range_succ]

theorem declaredArgs_four (va : List String) :
    declaredArgs 4 va = [va[2]?, va[3]?, va[4]?, va[5]?] := by
  simp [declaredArgs, List.range_succ]

theorem declaredArgs_eight (va : List String) :
    declaredArgs 8 va
      = [va[2]?, va[3]?, va[4]?, va[5]?, va[6]?, va[7]?,
         va[8]?, va[9]?] := by
  simp [declaredArgs, List.range_succ]

/-! ### Claim C5 -/

/-- Claim C5: for every frame whose first byte token is `"41"` and whose
second token matches some PID table entry (the first such entry, as the JS
loop breaks on the first match) with a supported declared width, `decode`
returns a Reply with `mode = "41"`, `pid` equal to the second token, `name`
equal to that entry's name, and `value` equal to the entry's decode formula
applied to exactly the entry's declared number of subsequent byte tokens;
when no entry matches, only `mode` and `pid` are populated and no error is
raised. -/
theorem parse_41_recognized (PIDS : List PIDEntry) (hexString : String)
    (e : PIDEntry)
    (hlit : hexString ∉ literalTokens)
    (h41 : (chunkPairs (stripSpaces hexString).data)[0]? = some "41")
    (hfind : PIDS.find?
        (fun x => x.pid = (chunkPairs (stripSpaces hexString).data)[1]?)
      = some e)
    (hb : e.bytes = 1 ∨ e.bytes = 2 ∨ e.bytes = 4 ∨ e.bytes = 8) :
    parseOBDCommand PIDS hexString
      = { mode := some "41",
          pid := (chunkPairs (stripSpaces hexString).data)[1]?,
          name := some e.name,
          value := some (e.convertToUseful
            (declaredArgs e.bytes (chunkPairs (stripSpaces hexString).data))) }
    ∧ ∀ (PS : List PIDEntry) (s : String),
        s ∉ literalTokens →
        (chunkPairs (stripSpaces s).data)[0]? = some "41" →
        PS.find? (fun x => x.pid = (chunkPairs (stripSpaces s).data)[1]?)
          = none →
        parseOBDCommand PS s
          = { mode := some "41",
              pid := (chunkPairs (stripSpaces s).data)[1]? } := by
  constructor
  · rcases hb with hb | hb | hb | hb <;>
      simp [parseOBDCommand, hlit, h41, hfind, hb, declaredArgs_one,
        declaredArgs_two, declaredArgs_four, declaredArgs_eight]
  · intro PS s hl h4 hn
    simp [parseOBDCommand, hl, h4, hn]

/-- Witness for C5: `decode("410C1AF8")` against the table `[rpmEntry]`
applies the entry's formula to exactly `("1A", "F8")`. -/
theorem parse_41_recognized_witness :
    parseOBDCommand [rpmEntry] "410C1AF8"
      = { mode := some "41",
          pid := (chunkPairs (stripSpaces "410C1AF8").data)[1]?,
          name := some rpmEntry.name,
          value := some (rpmEntry.convertToUseful
            (declaredArgs rpmEntry.bytes
              (chunkPairs (stripSpaces "410C1AF8").data))) }
    ∧ ∀ (PS : List PIDEntry) (s : String),
        s ∉ literalTokens →
        (chunkPairs (stripSpaces s).data)[0]? = some "41" →
        PS.find? (fun x => x.pid = (chunkPairs (stripSpaces s).data)[1]?)
          = none →
        parseOBDCommand PS s
          = { mode := some "41",
              pid := (chunkPairs (stripSpaces s).data)[1]? } :=
  parse_41_recognized [rpmEntry] "410C1AF8" rpmEntry (by decide) rfl rfl
    (Or.inr (Or.inl rfl))

/-! ### Claim C6 -/

/-- Claim C6 counterexample: the claim says a frame containing a byte token
that is not two case-insensitive hex digits fails with a `MalformedFrame`
error. `parseOBDCommand` performs no hex validation at all and has no error
outcome: on the malformed frame `"ZZ"` it returns the empty Reply, and on
`"41ZZ"` it treats the non-hex token `"ZZ"` as an ordinary PID token and
returns a partial Reply — decoding completes normally in both cases. -/
theorem parse_malformed_no_error :
    parseOBDCommand [rpmEntry] "ZZ" = ({} : Reply)
    ∧ parseOBDCommand [rpmEntry] "41ZZ" = { mode := some "41", pid := some "ZZ" } := by
  constructor <;> rfl

/-- Claim C6 (amended): malformed (non-hex) byte tokens are not detected and
never raise an error: the dispatcher does not crash, but instead of failing it
matches the tokens literally against `"41"`/`"43"` and the PID table. A frame
whose first token is not `"41"` or `"43"` (such as `"ZZ"`) yields the empty
Reply; a `"41"` frame with a non-hex second token yields a partial Reply with
only `mode` and `pid` populated whenever no table entry carries that
literal `pid`. -/
theorem parse_malformed_passthrough (PIDS : List PIDEntry)
    (hn : PIDS.find? (fun x => x.pid = some "ZZ") = none) :
    parseOBDCommand PIDS "41ZZ" = { mode := some "41", pid := some "ZZ" }
    ∧ ∀ PS : List PIDEntry, parseOBDCommand PS "ZZ" = ({} : Reply) := by
  constructor
  · have h : PIDS.find?
        (fun x => x.pid = (chunkPairs (stripSpaces "41ZZ").data)[1]?) = none := hn
    simp only [parseOBDCommand, h]
    rfl
  · intro PS
    rfl

/-- Witness for the amended C6 at the concrete table `[rpmEntry]`. -/
theorem parse_malformed_passthrough_witness :
    parseOBDCommand [rpmEntry] "41ZZ" = { mode := some "41", pid := some "ZZ" }
    ∧ ∀ PS : List PIDEntry, parseOBDCommand PS "ZZ" = ({} : Reply) :=
  parse_malformed_passthrough [rpmEntry] rfl

/-! ### Claim C7 -/

/-- Claim C7 counterexample: the claim says a `"41"` frame matching a table
entry with declared width not in {1, 2, 4, 8} fails with an
`UnsupportedWidth` error rather than silently producing a Reply without a
value. The switch in `parseOBDCommand` has no default case: with
`oddWidthEntry` (width 3) the frame `"41AB1122"` silently yields a Reply with
`mode`, `pid` and `name` set and NO `value`, and no error is raised. -/
theorem parse_unsupported_width_silent :
    parseOBDCommand [oddWidthEntry] "41AB1122"
      = { mode := some "41", pid := some "AB", name := some "oddwidth",
          value := none } := by
  rfl

/-- Claim C7 (amended): when a `"41"` frame matches a PID table entry whose
declared byte width is not one of 1, 2, 4, or 8, decoding silently produces a
Reply carrying `mode`, `pid` and the entry's `name` but no `value`; no error
of any kind is raised. -/
theorem parse_unsupported_width (PIDS : List PIDEntry) (hexString : String)
    (e : PIDEntry)
    (hlit : hexString ∉ literalTokens)
    (h41 : (chunkPairs (stripSpaces hexString).data)[0]? = some "41")
    (hfind : PIDS.find?
        (fun x => x.pid = (chunkPairs (stripSpaces hexString).data)[1]?)
      = some e)
    (hb1 : e.bytes ≠ 1) (hb2 : e.bytes ≠ 2) (hb4 : e.bytes ≠ 4)
    (hb8 : e.bytes ≠ 8) :
    parseOBDCommand PIDS hexString
      = { mode := some "41",
          pid := (chunkPairs (stripSpaces hexString).data)[1]?,
          name := some e.name, value := none } := by
  simp [parseOBDCommand, hlit, h41, hfind, hb1, hb2, hb4, hb8]

/-- Witness for the amended C7 at `oddWidthEntry` and frame `"41AB1122"`. -/
theorem parse_unsupported_width_witness :
    parseOBDCommand [oddWidthEntry] "41AB1122"
      = { mode := some "41",
          pid := (chunkPairs (stripSpaces "41AB1122").data)[1]?,
          name := some oddWidthEntry.name, value := none } :=
  parse_unsupported_width [oddWidthEntry] "41AB1122" oddWidthEntry (by decide)
    rfl rfl (by decide) (by decide) (by decide) (by decide)

/-! ### Claim C8 -/

/-- Claim C8 counterexample: the claim says `addPoller`/`removePoller` with a
name absent from the PID table fail with an `UnknownPID` error and leave the
Active Poller Set unchanged. In the code `getPIDByName` returns `undefined`
for an unknown name and no error is raised: `addPoller` pushes `undefined`
onto the set (changing it), and `removePoller` computes
`indexOf(undefined) = -1` and `splice(-1, 1)` — which removes the LAST
element of the set. -/
theorem poller_unknown_name_mutates :
    getPIDByName [vssEntry] "unknown" = none
    ∧ addPoller [vssEntry] "unknown" [] = [none]
    ∧ ([none] : List (Option String)) ≠ []
    ∧ removePoller [vssEntry] "unknown" [some "010D"] = [] := by
  refine ⟨rfl, rfl, by simp, rfl⟩

/-- Claim C8 (amended): for a name not present in the PID table no error is
raised; `addPoller` appends `undefined` (`none`) to the Active Poller Set,
and `removePoller` — via `indexOf = -1` and `splice(-1, 1)` — removes the
last element of the set whenever the set does not contain `undefined` (in
particular the set DOES change when non-empty). For a name that is present,
`addPoller` appends that name's resolved command string. -/
theorem poller_unknown_name (PIDS : List PIDEntry) (name : String)
    (ps : List (Option String))
    (hmiss : getPIDByName PIDS name = none) :
    addPoller PIDS name ps = ps ++ [none]
    ∧ (none ∉ ps → removePoller PIDS name ps = ps.dropLast)
    ∧ ∀ (PS : List PIDEntry) (n : String) (qs : List (Option String))
        (cmd : String),
        getPIDByName PS n = some cmd → addPoller PS n qs = qs ++ [some cmd] := by
  refine ⟨by simp [addPoller, hmiss], ?_, ?_⟩
  · intro hnone
    have hidx : ps.findIdx? (fun p => p = getPIDByName PIDS name) = none := by
      rw [hmiss, List.findIdx?_eq_none_iff]
      intro x hx
      simp only [decide_eq_false_iff_not]
      exact fun hxe => hnone (hxe ▸ hx)
    simp [removePoller, hidx]
  · intro PS n qs cmd hc
    simp [addPoller, hc]

/-- Witness for the amended C8: unknown name `"unknown"` against the table
`[vssEntry]` with one active poller `some "010D"`. -/
theorem poller_unknown_name_witness :
    addPoller [vssEntry] "unknown" [some "010D"] = [some "010D"] ++ [none]
    ∧ (none ∉ ([some "010D"] : List (Option String)) →
        removePoller [vssEntry] "unknown" [some "010D"]
          = ([some "010D"] : List (Option String)).dropLast)
    ∧ ∀ (PS : List PIDEntry) (n : String) (qs : List (Option String))
        (cmd : String),
        getPIDByName PS n = some cmd → addPoller PS n qs = qs ++ [some cmd] :=
  poller_unknown_name [vssEntry] "unknown" [some "010D"] rfl

/-! ### Claim C9 -/

theorem writePollers_eq_append (ps : List (Option String)) :
    ∀ q : List String, q.length + ps.length ≤ 256 →
      writePollers true q ps = (q ++ ps.map (fun p => encodeCommand p 1), []) := by
  induction ps with
  | nil => intro q h; simp [writePollers]
  | cons p rest ih =>
    intro q h
    have hq : q.length < 256 := by
      simp only [List.length_cons] at h
      omega
    have hw : write true q p 1 = (q ++ [encodeCommand p 1], []) := by
      simp [write, hq]
    have step : writePollers true q (p :: rest)
        = writePollers true (q ++ [encodeCommand p 1]) rest := by
      simp only [writePollers, List.foldl_cons, hw, List.nil_append,
        List.append_nil]
    rw [step, ih (q ++ [encodeCommand p 1])
      (by simp only [List.length_append, List.length_cons,
            List.length_nil] at h ⊢; omega)]
    simp [List.append_assoc]

/-- Claim C9: `startPolling` with no explicit interval schedules its timer at
`activePollers.length * (2 * 50 ms)` — so 300 ms for three active pollers —
and every poller tick enqueues exactly one command per entry of the Active
Poller Set, in set order, each with expected reply count exactly 1 (each
appended command is `encodeCommand entry 1`); with an empty set a tick
enqueues zero commands. -/
theorem polling_interval_and_tick (ps : List (Option String)) (q : List String)
    (hroom : q.length + ps.length ≤ 256) :
    startPollingInterval none ps = ps.length * (writeDelay * 2)
    ∧ (ps.length = 3 → startPollingInterval none ps = 300)
    ∧ writePollers true q ps = (q ++ ps.map (fun p => encodeCommand p 1), [])
    ∧ ∀ (c : Bool) (q2 : List String), writePollers c q2 [] = (q2, []) := by
  refine ⟨rfl, ?_, writePollers_eq_append ps q hroom, ?_⟩
  · intro h3
    simp [startPollingInterval, h3, writeDelay]
  · intro c q2
    rfl

/-- Witness for C9 at a three-entry poller set and the empty queue. -/
theorem polling_interval_and_tick_witness :
    startPollingInterval none [some "010C", some "010D", some "0105"]
      = ([some "010C", some "010D", some "0105"] : List (Option String)).length
          * (writeDelay * 2)
    ∧ (([some "010C", some "010D", some "0105"] : List (Option String)).length = 3 →
        startPollingInterval none [some "010C", some "010D", some "0105"] = 300)
    ∧ writePollers true [] [some "010C", some "010D", some "0105"]
        = ([] ++ ([some "010C", some "010D", some "0105"] : List (Option String)).map
            (fun p => encodeCommand p 1), [])
    ∧ ∀ (c : Bool) (q2 : List String), writePollers c q2 [] = (q2, []) :=
  polling_interval_and_tick [some "010C", some "010D", some "0105"] []
    (by decide)

/-! ### Claim C10 -/

/-- Claim C10: the Command Queue is a single module-global array shared by
every `OBDReader` instance in the process. `write` through any instance `i`
appends to the one global queue and changes no per-instance field, and
`disconnect` on any instance `j` empties the entire queue, discarding the
command just enqueued through instance `i`. The per-instance state is
exactly the `OBDInstance` fields (`connected`, `receivedData`, `protocol`,
`activePollers`, the two timer handles) plus the external transport handle
`btSerial`. -/
theorem global_queue_shared (w : World) (i j : Nat) (c : String) (r : Nat)
    (inst : OBDInstance)
    (hi : w.instances[i]? = some inst)
    (hconn : inst.connected = true)
    (hq : w.queue.length < 256)
    (hj : j < w.instances.length) :
    (worldWrite w i (some c) r).1.queue = w.queue ++ [encodeCommand (some c) r]
    ∧ (worldWrite w i (some c) r).1.instances = w.instances
    ∧ (worldDisconnect (worldWrite w i (some c) r).1 j).queue = [] := by
  have hw : worldWrite w i (some c) r
      = ({ w with queue := w.queue ++ [encodeCommand (some c) r] }, []) := by
    simp [worldWrite, hi, hconn, write, hq]
  refine ⟨by rw [hw], by rw [hw], ?_⟩
  rw [hw]
  obtain ⟨instj, hgj⟩ : ∃ x, w.instances[j]? = some x :=
    ⟨w.instances[j], List.getElem?_eq_getElem hj⟩
  simp [worldDisconnect, hgj]

/-- Witness for C10: a command written through instance 0 of `w0` lands on
the global queue and is discarded by `disconnect` on instance 1. -/
theorem global_queue_shared_witness :
    (worldWrite w0 0 (some "010C") 1).1.queue
      = w0.queue ++ [encodeCommand (some "010C") 1]
    ∧ (worldWrite w0 0 (some "010C") 1).1.instances = w0.instances
    ∧ (worldDisconnect (worldWrite w0 0 (some "010C") 1).1 1).queue = [] :=
  global_queue_shared w0 0 1 "010C" 1 { connected := true } rfl rfl
    (by decide) (by decide)

end OBD
